import Mathlib

/-!
Verification of the SUDP transport reliability layer.

This file shallowly embeds the core of the `sudp` repository
(`src/sudp/common/recovery.py`, `src/sudp/common/packet.py`,
`src/sudp/server/tcp_server.py`) and proves or refutes the frozen claims
about it.  Python floats are modelled as rationals, `dict`s as
insertion-ordered association lists, `set`s as duplicate-free lists whose
iteration order is abstract (CPython set iteration order is hash-dependent,
so it is a parameter of the model), and coroutines as explicit state-passing
functions; externally visible effects (buffer insertions, wire writes,
drops) are recorded in explicit event traces.
-/

namespace SUDP

/-! ### Models of Python primitives -/

/-- Python `int(q)` on a float modelled as a rational: truncation toward
zero.  `q.num.div q.den` is Lean's t-division, which truncates toward zero
exactly like CPython `int()`. -/
def pyInt (q : ℚ) : ℤ := q.num.tdiv (q.den : ℤ)

/-- Decimal rendering of a natural number, modelling Python `str`/f-string
formatting of a nonnegative `int`: most significant digit first, `"0"` for
zero. -/
def pyNatStr (n : ℕ) : String :=
  if n = 0 then "0" else String.mk (((Nat.digits 10 n).map Nat.digitChar).reverse)

/-- Decimal rendering of an integer, modelling Python `str` on `int`. -/
def pyIntStr (i : ℤ) : String :=
  if i < 0 then "-" ++ pyNatStr i.natAbs else pyNatStr i.toNat

/-- Python `d[k] = v` on an insertion-ordered `dict`: replace in place when
the key is present (keeping its position), otherwise append at the end. -/
def pyDictSet {β : Type*} (k : String) (v : β) : List (String × β) → List (String × β)
  | [] => [(k, v)]
  | (k', v') :: rest => if k' = k then (k, v) :: rest else (k', v') :: pyDictSet k v rest

/-- Python `d.pop(k, None)` / `del d[k]` on a `dict`: drop the entry with
key `k`, keeping the order of the others. -/
def pyDictPop {β : Type*} (k : String) (d : List (String × β)) : List (String × β) :=
  d.eraseP (fun p => p.1 == k)

/-! ### JSON values

One JSON value per wire line.  Python's `json` module distinguishes `int`
from `float`, so the model does too. -/

inductive JVal : Type where
  | jnull : JVal
  | jbool : Bool → JVal
  | jint : ℤ → JVal
  | jnum : ℚ → JVal
  | jstr : String → JVal
  | jarr : List JVal → JVal
  | jobj : List (String × JVal) → JVal

/-- A JSON object body: an insertion-ordered association list, like a
Python `dict`. -/
abbrev JObj := List (String × JVal)

/-- Field lookup on a JSON value (`none` when the value is not an object or
the key is absent). -/
def JVal.lookupField (v : JVal) (k : String) : Option JVal :=
  match v with
  | .jobj fields => fields.lookup k
  | _ => none

/-! ### `PacketBuffer` (recovery.py lines 20-80)

`packets` models the Python `dict` (insertion-ordered, unique keys);
`packet_ids` models the Python `set` *in its iteration order*: CPython set
iteration order depends on hashes (randomized for `str`), so the position
at which `set.add` places a new element is a parameter `setIns` of every
operation that inserts.  `next(iter(s))` is the head of the model list. -/

structure BufEntry (α : Type) where
  data : α
  timestamp : ℚ
  retries : ℕ

structure PacketBuffer (α : Type) where
  max_size : ℕ
  timeout_seconds : ℚ
  packets : List (String × BufEntry α)
  packet_ids : List String

/-- `PacketBuffer.add` (recovery.py lines 28-47).  When the buffer is full
it evicts `next(iter(self.packet_ids))` — the head of the set's iteration
order — removing it from the set (`set.remove`) and from the dict
(`dict.pop` with default).  Then the new entry is stored with `retries = 0`
and the id added to the set at a position chosen by `setIns`.  The `none`
branch of the eviction `match` is unreachable for `max_size ≥ 1` under the
buffer invariant (in Python, `next(iter(∅))` would raise). -/
def PacketBuffer.add {α : Type} (setIns : String → List String → List String)
    (t : ℚ) (packet_id : String) (packet_data : α) (b : PacketBuffer α) :
    PacketBuffer α :=
  let b' :=
    if b.max_size ≤ b.packets.length then
      match b.packet_ids.head? with
      | some oldest_id =>
          { b with
            packet_ids := b.packet_ids.erase oldest_id,
            packets := pyDictPop oldest_id b.packets }
      | none => b
    else b
  { b' with
    packets := pyDictSet packet_id ⟨packet_data, t, 0⟩ b'.packets,
    packet_ids := setIns packet_id b'.packet_ids }

/-- `PacketBuffer.acknowledge` (recovery.py lines 49-57): remove the entry
from dict and set when present, no-op otherwise. -/
def PacketBuffer.acknowledge {α : Type} (packet_id : String) (b : PacketBuffer α) :
    PacketBuffer α :=
  if (b.packets.lookup packet_id).isSome then
    { b with
      packets := pyDictPop packet_id b.packets,
      packet_ids := b.packet_ids.erase packet_id }
  else b

/-- `PacketBuffer.get_unacknowledged` (recovery.py lines 59-75): walk the
dict in order; every entry older than `timeout_seconds` gets its timestamp
reset to `now`, its retry count incremented, and its `(id, data)` pair
collected. -/
def PacketBuffer.get_unacknowledged {α : Type} (now : ℚ) (b : PacketBuffer α) :
    List (String × α) × PacketBuffer α :=
  let refreshed := b.packets.map (fun p =>
    if b.timeout_seconds < now - p.2.timestamp then
      (p.1, BufEntry.mk p.2.data now (p.2.retries + 1))
    else p)
  let due := b.packets.filterMap (fun p =>
    if b.timeout_seconds < now - p.2.timestamp then some (p.1, p.2.data) else none)
  (due, { b with packets := refreshed })

/-- `PacketBuffer.clear` (recovery.py lines 77-80). -/
def PacketBuffer.clear {α : Type} (b : PacketBuffer α) : PacketBuffer α :=
  { b with packets := [], packet_ids := [] }

/-- The dict/set consistency invariant of a `PacketBuffer`: keys of
`packets` are duplicate-free, `packet_ids` is duplicate-free (it models a
set), and both hold exactly the same ids. -/
def PacketBuffer.Inv {α : Type} (b : PacketBuffer α) : Prop :=
  (b.packets.map Prod.fst).Nodup ∧ b.packet_ids.Nodup ∧
    ∀ s : String, s ∈ b.packets.map Prod.fst ↔ s ∈ b.packet_ids

/-- One possible CPython set-insertion behaviour: a new element lands first
in iteration order; adding a present element is a no-op. -/
def setInsFront (a : String) (l : List String) : List String :=
  if a ∈ l then l else a :: l

/-! ### Helper lemmas about the Python primitive models -/

theorem mem_keys_pyDictSet {β : Type*} (k : String) (v : β) (l : List (String × β))
    (s : String) : s ∈ (pyDictSet k v l).map Prod.fst ↔ s = k ∨ s ∈ l.map Prod.fst := by
  induction l with
  | nil => simp [pyDictSet]
  | cons p rest ih =>
      obtain ⟨k', v'⟩ := p
      by_cases h : k' = k
      · subst h
        simp [pyDictSet]
      · simp only [pyDictSet, if_neg h, List.map_cons, List.mem_cons, ih]
        tauto

theorem keys_nodup_pyDictSet {β : Type*} (k : String) (v : β) (l : List (String × β))
    (h : (l.map Prod.fst).Nodup) : ((pyDictSet k v l).map Prod.fst).Nodup := by
  induction l with
  | nil => simp [pyDictSet]
  | cons p rest ih =>
      obtain ⟨k', v'⟩ := p
      simp only [List.map_cons, List.nodup_cons] at h
      by_cases hk : k' = k
      · subst hk
        simpa [pyDictSet] using h
      · simp only [pyDictSet, if_neg hk, List.map_cons, List.nodup_cons]
        refine ⟨fun hc => ?_, ih h.2⟩
        rcases (mem_keys_pyDictSet k v rest k').1 hc with h1 | h1
        · exact hk h1
        · exact h.1 h1

theorem lookup_pyDictSet_self {β : Type*} (k : String) (v : β) (l : List (String × β)) :
    (pyDictSet k v l).lookup k = some v := by
  induction l with
  | nil => simp [pyDictSet]
  | cons p rest ih =>
      obtain ⟨k', v'⟩ := p
      by_cases h : k' = k
      · subst h
        simp [pyDictSet]
      · have hb : (k == k') = false := beq_eq_false_iff_ne.mpr (Ne.symm h)
        simp [pyDictSet, if_neg h, List.lookup, hb, ih]

theorem length_pyDictSet_le {β : Type*} (k : String) (v : β) (l : List (String × β)) :
    (pyDictSet k v l).length ≤ l.length + 1 := by
  induction l with
  | nil => simp [pyDictSet]
  | cons p rest ih =>
      obtain ⟨k', v'⟩ := p
      by_cases h : k' = k
      · subst h
        simp [pyDictSet]
      · simp only [pyDictSet, if_neg h, List.length_cons]
        omega

theorem keys_pyDictPop {β : Type*} (k : String) (l : List (String × β)) :
    (pyDictPop k l).map Prod.fst = (l.map Prod.fst).erase k := by
  induction l with
  | nil => simp [pyDictPop]
  | cons p rest ih =>
      obtain ⟨k', v'⟩ := p
      by_cases h : k' = k
      · subst h
        simp [pyDictPop, List.eraseP_cons, List.erase_cons]
      · simp only [pyDictPop, List.eraseP_cons, List.map_cons, List.erase_cons]
        have hb : (k' == k) = false := by simp [h]
        simp only [hb, Bool.false_eq_true, if_false, List.map_cons]
        rw [← ih]
        rfl

theorem lookup_isSome_iff_mem_keys {β : Type*} (s : String) (l : List (String × β)) :
    (l.lookup s).isSome ↔ s ∈ l.map Prod.fst := by
  induction l with
  | nil => simp [List.lookup]
  | cons p rest ih =>
      obtain ⟨k', v'⟩ := p
      by_cases h : s = k'
      · subst h
        simp [List.lookup]
      · have hb : (s == k') = false := by simp [h]
        simp [List.lookup, hb, ih, h]

theorem mem_setInsFront (a : String) (l : List String) (s : String) :
    s ∈ setInsFront a l ↔ s = a ∨ s ∈ l := by
  unfold setInsFront
  by_cases h : a ∈ l
  · simp only [if_pos h]
    constructor
    · exact fun hs => Or.inr hs
    · rintro (rfl | hs)
      · exact h
      · exact hs
  · simp [if_neg h]

theorem nodup_setInsFront (a : String) (l : List String) (h : l.Nodup) :
    (setInsFront a l).Nodup := by
  unfold setInsFront
  by_cases ha : a ∈ l
  · simpa [if_pos ha]
  · simp [if_neg ha, List.nodup_cons, ha, h]

/-! ### Injectivity of the decimal printers -/

theorem digitChar_inj_of_lt {a b : ℕ} (ha : a < 10) (hb : b < 10)
    (h : Nat.digitChar a = Nat.digitChar b) : a = b := by
  have key : ∀ x y : Fin 10, Nat.digitChar x.val = Nat.digitChar y.val → x = y := by decide
  have := key ⟨a, ha⟩ ⟨b, hb⟩ h
  exact congrArg Fin.val this

theorem map_digitChar_inj : ∀ (l₁ l₂ : List ℕ), (∀ x ∈ l₁, x < 10) → (∀ x ∈ l₂, x < 10) →
    l₁.map Nat.digitChar = l₂.map Nat.digitChar → l₁ = l₂ := by
  intro l₁
  induction l₁ with
  | nil =>
      intro l₂ _ _ h
      cases l₂ with
      | nil => rfl
      | cons b t => simp at h
  | cons a t ih =>
      intro l₂ h₁ h₂ h
      cases l₂ with
      | nil => simp at h
      | cons b t' =>
          simp only [List.map_cons, List.cons.injEq] at h
          have hab : a = b :=
            digitChar_inj_of_lt (h₁ a (by simp)) (h₂ b (by simp)) h.1
          have ht : t = t' :=
            ih t' (fun x hx => h₁ x (by simp [hx])) (fun x hx => h₂ x (by simp [hx])) h.2
          rw [hab, ht]

theorem pyNatStr_injective : Function.Injective pyNatStr := by
  intro n m h
  unfold pyNatStr at h
  by_cases hn : n = 0 <;> by_cases hm : m = 0
  · rw [hn, hm]
  · exfalso
    rw [if_pos hn, if_neg hm] at h
    have hd : ['0'] = ((Nat.digits 10 m).map Nat.digitChar).reverse :=
      congrArg String.data h
    have hd' : (Nat.digits 10 m).map Nat.digitChar = ['0'] := by
      have := congrArg List.reverse hd
      simpa using this.symm
    have hzero : Nat.digits 10 m = [0] := by
      refine map_digitChar_inj _ [0] ?_ ?_ ?_
      · exact fun x hx => Nat.digits_lt_base (by norm_num) hx
      · simp
      · simpa using hd'
    have h1 := Nat.ofDigits_digits 10 m
    rw [hzero] at h1
    simp [Nat.ofDigits] at h1
    exact hm h1.symm
  · exfalso
    rw [if_neg hn, if_pos hm] at h
    have hd : ((Nat.digits 10 n).map Nat.digitChar).reverse = ['0'] :=
      congrArg String.data h
    have hd' : (Nat.digits 10 n).map Nat.digitChar = ['0'] := by
      have := congrArg List.reverse hd
      simpa using this
    have hzero : Nat.digits 10 n = [0] := by
      refine map_digitChar_inj _ [0] ?_ ?_ ?_
      · exact fun x hx => Nat.digits_lt_base (by norm_num) hx
      · simp
      · simpa using hd'
    have h1 := Nat.ofDigits_digits 10 n
    rw [hzero] at h1
    simp [Nat.ofDigits] at h1
    exact hn h1.symm
  · rw [if_neg hn, if_neg hm] at h
    have hd : ((Nat.digits 10 n).map Nat.digitChar).reverse
        = ((Nat.digits 10 m).map Nat.digitChar).reverse :=
      congrArg String.data h
    have hd' : (Nat.digits 10 n).map Nat.digitChar = (Nat.digits 10 m).map Nat.digitChar := by
      have := congrArg List.reverse hd
      simpa using this
    have hdig : Nat.digits 10 n = Nat.digits 10 m := by
      refine map_digitChar_inj _ _ ?_ ?_ hd'
      · exact fun x hx => Nat.digits_lt_base (by norm_num) hx
      · exact fun x hx => Nat.digits_lt_base (by norm_num) hx
    calc n = Nat.ofDigits 10 (Nat.digits 10 n) := (Nat.ofDigits_digits 10 n).symm
      _ = Nat.ofDigits 10 (Nat.digits 10 m) := by rw [hdig]
      _ = m := Nat.ofDigits_digits 10 m

theorem pyIntStr_inj_of_nonneg {x y : ℤ} (hx : 0 ≤ x) (hy : 0 ≤ y)
    (h : pyIntStr x = pyIntStr y) : x = y := by
  unfold pyIntStr at h
  rw [if_neg (by omega), if_neg (by omega)] at h
  have := pyNatStr_injective h
  omega

theorem string_append_left_cancel {s a b : String} (h : s ++ a = s ++ b) : a = b := by
  have hd := congrArg String.data h
  rw [String.data_append, String.data_append] at hd
  have h2 := List.append_cancel_left hd
  cases a
  cases b
  exact congrArg String.mk h2

theorem pyInt_eq_floor {q : ℚ} (h : 0 ≤ q) : pyInt q = ⌊q⌋ := by
  unfold pyInt
  rw [Rat.floor_def]
  exact Int.tdiv_eq_ediv (Rat.num_nonneg.2 h) (by positivity)

theorem pyInt_lt_of_add_le {a b : ℚ} (ha : 0 ≤ a) (h : a + 30 ≤ b) :
    pyInt a < pyInt b := by
  have hb : 0 ≤ b := le_trans (by linarith) h
  rw [pyInt_eq_floor ha, pyInt_eq_floor hb]
  have h1 : ⌊a + (30 : ℤ)⌋ ≤ ⌊b⌋ := Int.floor_le_floor (by push_cast; linarith)
  rw [Int.floor_add_int] at h1
  omega

theorem pyInt_nonneg {q : ℚ} (h : 0 ≤ q) : 0 ≤ pyInt q := by
  rw [pyInt_eq_floor h]
  exact Int.floor_nonneg.2 h

/-! ### `ReliableChannel` (recovery.py lines 252-389)

The injected asynchronous `send_func` is external: its outcome (success or
raised exception) is an input of the model, and its invocations are
recorded as `wireSend` events in an execution trace, in program order.
`bufferAdd` records the insertion into the `PacketBuffer`, `dropPacket`
the silent abandonment branch of the retransmit loop. -/

inductive ChanEvent : Type where
  | bufferAdd : String → JObj → ChanEvent
  | wireSend : JObj → Bool → ChanEvent
  | dropPacket : String → ChanEvent

/-- Number of `wireSend` events in a trace. -/
def countWireSends (evs : List ChanEvent) : ℕ :=
  evs.countP (fun e => match e with | .wireSend _ _ => true | _ => false)

/-- Number of `dropPacket` events in a trace. -/
def countDrops (evs : List ChanEvent) : ℕ :=
  evs.countP (fun e => match e with | .dropPacket _ => true | _ => false)

structure ReliableChannel where
  max_retries : ℕ
  buffer : PacketBuffer JObj
  next_seq_num : ℕ

/-- The packet id composed by `ReliableChannel.send` (recovery.py line
333): `f"{int(time.time())}:{seq_num}"`. -/
def ReliableChannel.packetId (t : ℚ) (c : ReliableChannel) : String :=
  pyIntStr (pyInt t) ++ ":" ++ pyNatStr c.next_seq_num

/-- The frame composed by `ReliableChannel.send` (recovery.py lines
336-342): a copy of `data` with `_meta = {id, seq, timestamp,
requires_ack: true}` attached.  Note that `_meta` carries no `retries`
key. -/
def ReliableChannel.sentFrame (t : ℚ) (data : JObj) (c : ReliableChannel) : JObj :=
  pyDictSet "_meta"
    (.jobj [("id", .jstr (c.packetId t)), ("seq", .jint (c.next_seq_num : ℤ)),
            ("timestamp", .jnum t), ("requires_ack", .jbool true)])
    data

/-- `ReliableChannel.send` (recovery.py lines 322-355): allocate the next
sequence number (32-bit wraparound), compose id and `_meta`, insert into
the buffer, then attempt the raw send.  The function is total in the send
outcome `sendOk`: a raised exception in `send_func` is caught and logged
(lines 351-353), so the caller still receives the packet id and the entry
stays buffered. -/
def ReliableChannel.send (setIns : String → List String → List String)
    (t : ℚ) (sendOk : Bool) (data : JObj) (c : ReliableChannel) :
    String × ReliableChannel × List ChanEvent :=
  let packet_id := c.packetId t
  let packet_data := c.sentFrame t data
  (packet_id,
   { c with
     buffer := c.buffer.add setIns t packet_id packet_data,
     next_seq_num := (c.next_seq_num + 1) % 2 ^ 32 },
   [.bufferAdd packet_id packet_data, .wireSend packet_data sendOk])

/-- `ReliableChannel.acknowledge` (recovery.py lines 357-364). -/
def ReliableChannel.acknowledge (packet_id : String) (c : ReliableChannel) :
    ReliableChannel :=
  { c with buffer := c.buffer.acknowledge packet_id }

/-- The retry count the retransmit loop reads (recovery.py line 373):
`packet_data.get("_meta", {}).get("retries", 0)`.  `packet_data` is the
*frame* stored in the buffer entry, so this looks for a `retries` key
inside the frame's `_meta` object — not the `retries` counter of the
buffer entry itself.  (A non-object truthy `_meta` would raise
`AttributeError` in Python, caught by the loop's outer handler; frames
composed by `send` always carry an object `_meta`.) -/
def metaRetries (frame : JObj) : ℚ :=
  match frame.lookup "_meta" with
  | some (.jobj m) =>
      match m.lookup "retries" with
      | some (.jint n) => (n : ℚ)
      | some (.jnum q) => q
      | _ => 0
  | _ => 0

/-- One iteration of `ReliableChannel._retransmit_loop` (recovery.py lines
366-389): collect the due entries via `get_unacknowledged`, then for each
one either drop it (when `metaRetries ≥ max_retries`) or resend it via the
injected send function (whose outcome per packet is `sendOk`; a raised
exception is caught at line 382 and changes nothing).  `retransmitStep`
is the per-entry body of the `for` loop (lines 371-383); note that its
drop test reads `metaRetries` — the `retries` key of the frame's `_meta`
object — not the buffer entry's retry counter. -/
def retransmitStep (c : ReliableChannel) (sendOk : String → Bool)
    (acc : ReliableChannel × List ChanEvent) (pd : String × JObj) :
    ReliableChannel × List ChanEvent :=
  if (c.max_retries : ℚ) ≤ metaRetries pd.2 then
    ({ acc.1 with buffer := acc.1.buffer.acknowledge pd.1 },
     acc.2 ++ [.dropPacket pd.1])
  else
    (acc.1, acc.2 ++ [.wireSend pd.2 (sendOk pd.1)])

def ReliableChannel.retransmitIter (t : ℚ) (sendOk : String → Bool)
    (c : ReliableChannel) : ReliableChannel × List ChanEvent :=
  let r := c.buffer.get_unacknowledged t
  r.1.foldl (retransmitStep c sendOk) ({ c with buffer := r.2 }, [])

/-- Repeated retransmit-loop iterations at the given wake-up times,
accumulating the event trace. -/
def ReliableChannel.retransmitRun (sendOk : String → Bool) (times : List ℚ)
    (c : ReliableChannel) : ReliableChannel × List ChanEvent :=
  times.foldl
    (fun acc t =>
      let r := ReliableChannel.retransmitIter t sendOk acc.1
      (r.1, acc.2 ++ r.2))
    (c, [])

/-! ### `ConnectionManager` (recovery.py lines 83-249)

The injected `connect_func` is external; the outcome of its `k`-th
invocation from the reconnection loop is `outcomes k`.  The manager's
`_reconnect_task` is modelled by the flag `reconnect_task_running`
(`false` iff the task is absent or `.done()`).  Backoff sleeps do not
change manager state and are not modelled. -/

structure ConnectionManager where
  max_retries : ℕ
  initial_backoff : ℚ
  max_backoff : ℚ
  jitter : ℚ
  connected : Bool
  connecting : Bool
  retry_count : ℕ
  reconnect_task_running : Bool

/-- `ConnectionManager._calculate_backoff` (recovery.py lines 141-156).
`random.uniform(-jitter_amount, jitter_amount)` is modelled as
`u * jitter_amount` for a draw `u` with `|u| ≤ 1`. -/
def calculateBackoff (initial_backoff max_backoff : ℚ) (retry_count : ℕ)
    (jitter u : ℚ) : ℚ :=
  let backoff := min (initial_backoff * 2 ^ retry_count) max_backoff
  let jitter_amount := backoff * jitter
  max (backoff + u * jitter_amount) (1 / 10)

/-- `ConnectionManager.connection_lost` (recovery.py lines 227-237):
when not connected, return immediately; otherwise clear `connected` and
start a reconnection task if none is running.  The returned flag records
whether a new reconnection loop was started. -/
def ConnectionManager.connection_lost (m : ConnectionManager) :
    ConnectionManager × Bool :=
  if !m.connected then (m, false)
  else
    let m' := { m with connected := false }
    if !m'.reconnect_task_running then
      ({ m' with reconnect_task_running := true }, true)
    else (m', false)

/-- The body of `ConnectionManager._reconnect_loop` (recovery.py lines
198-225), fuelled: while not connected and `retry_count < max_retries`,
increment the retry count, sleep (state-invisible), attempt
`connect_func` (outcome `outcomes retry_count`), and on success set
`connected` and clear the error.  `fuel` bounds the iterations; any fuel
`≥ max_retries - retry_count` is enough. -/
def reconnectSteps (outcomes : ℕ → Bool) : ℕ → ConnectionManager → ConnectionManager
  | 0, m => m
  | fuel + 1, m =>
      if m.connected || m.max_retries ≤ m.retry_count then m
      else
        let m₁ := { m with retry_count := m.retry_count + 1 }
        let m₂ :=
          if outcomes m₁.retry_count then
            { m₁ with connected := true, connecting := false }
          else { m₁ with connecting := false }
        reconnectSteps outcomes fuel m₂

/-- A full run of `ConnectionManager._reconnect_loop`: iterate until the
loop condition fails, then the task finishes (so `_reconnect_task.done()`
becomes true). -/
def ConnectionManager.run_reconnect_loop (outcomes : ℕ → Bool)
    (m : ConnectionManager) : ConnectionManager :=
  { reconnectSteps outcomes (m.max_retries + 1) m with reconnect_task_running := false }

/-! ### `TCPServer` (tcp_server.py)

A received line is either undecodable (`json.loads` raises
`JSONDecodeError`) or decodes to a JSON value; `json.loads` itself is
external, so the model takes the parse outcome as input. -/

inductive Line : Type where
  | bad : Line
  | parsed : JVal → Line

/-- Python truthiness of `d.get(k)`-style values: `None`, `False`, `0`,
`""`, `[]` and `{}` are falsy. -/
def jTruthy : Option JVal → Bool
  | none => false
  | some .jnull => false
  | some (.jbool b) => b
  | some (.jint n) => !(n == 0)
  | some (.jnum q) => !(q == 0)
  | some (.jstr s) => !(s == "")
  | some (.jarr xs) => !xs.isEmpty
  | some (.jobj fs) => !fs.isEmpty

/-- The structured error frame built by `TCPServer._process_packet`
(tcp_server.py lines 397-419): `{"error": msg, "_meta": {"id":
f"error:{int(time.time())}", "timestamp": ..., "requires_ack": false}}`. -/
def errorFrame (t : ℚ) (msg : String) : JVal :=
  .jobj [("error", .jstr msg),
         ("_meta", .jobj [("id", .jstr ("error:" ++ pyIntStr (pyInt t))),
                          ("timestamp", .jnum t),
                          ("requires_ack", .jbool false)])]

/-- The id used in the `resp:`-stamped response metadata (tcp_server.py
line 389): `meta.get('id', str(time.time()))` interpolated into an
f-string.  For a non-string or absent id Python interpolates the value's
`str()`; only the string case is claim-relevant, the fallback stands in
for the textual rendering. -/
def respMetaId (m : JObj) (t : ℚ) : String :=
  match m.lookup "id" with
  | some (.jstr s) => s
  | _ => pyIntStr (pyInt t)

/-- `TCPServer._process_packet` (tcp_server.py lines 355-419).  `.bad`
takes the `json.JSONDecodeError` handler (lines 397-407).  A decoded
object is checked for `_ack` (consumed silently), then its `_meta` is
popped; a truthy object `_meta` with truthy `requires_ack` and truthy `id`
yields an `{_ack: id}` reply, otherwise the remaining fields are echoed,
re-stamped with fresh response metadata when `_meta` was truthy.  A non-object
decoded value makes the Python body raise (`TypeError`/`AttributeError`),
caught by the generic handler (lines 409-419) which also answers with a
structured error frame. -/
def process_packet (t : ℚ) (l : Line) : Option JVal :=
  match l with
  | .bad => some (errorFrame t "Invalid JSON")
  | .parsed (.jobj fields) =>
      if (fields.lookup "_ack").isSome then none
      else
        let meta := fields.lookup "_meta"
        let packet := pyDictPop "_meta" fields
        match meta with
        | some (.jobj m) =>
            if jTruthy (some (.jobj m)) && jTruthy (m.lookup "requires_ack")
                && jTruthy (m.lookup "id") then
              some (.jobj [("_ack", (m.lookup "id").getD .jnull)])
            else if jTruthy (some (.jobj m)) then
              some (.jobj (pyDictSet "_meta"
                (.jobj [("id", .jstr ("resp:" ++ respMetaId m t)),
                        ("timestamp", .jnum t),
                        ("requires_ack", .jbool false)]) packet))
            else some (.jobj packet)
        | some v =>
            if jTruthy (some v) then some (errorFrame t "AttributeError")
            else some (.jobj packet)
        | none => some (.jobj packet)
  | .parsed _ => some (errorFrame t "TypeError")

/-- The heartbeat frame sent after a 30-second idle read timeout
(tcp_server.py lines 325-332). -/
def heartbeatFrame (t : ℚ) : JVal :=
  .jobj [("heartbeat", .jint (pyInt t)),
         ("_meta", .jobj [("id", .jstr ("heartbeat:" ++ pyIntStr (pyInt t))),
                          ("timestamp", .jnum t),
                          ("requires_ack", .jbool true)])]

/-- What one iteration of `TCPServer._client_loop` does with the stream. -/
inductive LoopEvent : Type where
  | recv : Line → LoopEvent
  | timeout : LoopEvent
  | eof : LoopEvent
  | readError : LoopEvent

inductive LoopDecision : Type where
  | cont : LoopDecision
  | stop : LoopDecision

/-- One iteration of `TCPServer._client_loop` (tcp_server.py lines
287-353) given what the 30s-timeout read produced.  Returns the loop
decision, the frames written to the client (writes modelled as
succeeding), and the updated consecutive-error counter
(`max_consecutive_errors = 5`).  EOF breaks the loop; a received line —
decodable or not — resets the error counter, is processed, the response
(if any) is written, and the loop continues; a read timeout sends one
heartbeat and continues; a processing/read exception increments the error
counter and disconnects only at five consecutive errors. -/
def clientLoopStep (t : ℚ) (consecutive_errors : ℕ) (e : LoopEvent) :
    LoopDecision × List JVal × ℕ :=
  match e with
  | .eof => (.stop, [], consecutive_errors)
  | .recv l => (.cont, (process_packet t l).toList, 0)
  | .timeout => (.cont, [heartbeatFrame t], consecutive_errors)
  | .readError =>
      let errs := consecutive_errors + 1
      (if 5 ≤ errs then .stop else .cont, [], errs)

/-- A server-side client session (`ClientInfo`, tcp_server.py lines
22-68); the stream objects are external handles and carry no state the
claims touch. -/
structure ClientInfo where
  client_id : String
  connected_at : ℚ
  last_active : ℚ
  packets_received : ℕ
  packets_sent : ℕ
  bytes_received : ℕ
  bytes_sent : ℕ

structure TCPServer where
  max_clients : ℕ
  clients : List (String × ClientInfo)
  total_connections : ℕ

inductive AdmissionResult : Type where
  | rejected : AdmissionResult
  | accepted : String → AdmissionResult

/-- The admission part of `TCPServer._handle_client` (tcp_server.py lines
227-255): when `len(self._clients) >= self.max_clients` the new connection
is closed immediately — no `ClientInfo` is created, nothing is written on
the socket, no task is spawned — otherwise a `ClientInfo` keyed
`"host:port"` is registered and the total-connection counter bumped.
`.rejected` stands for the close-without-frames path. -/
def TCPServer.handle_client_admission (t : ℚ) (peer : String × ℕ)
    (s : TCPServer) : TCPServer × AdmissionResult :=
  if s.max_clients ≤ s.clients.length then (s, .rejected)
  else
    let client_id := peer.1 ++ ":" ++ pyNatStr peer.2
    ({ s with
       clients := pyDictSet client_id ⟨client_id, t, t, 0, 0, 0, 0⟩ s.clients,
       total_connections := s.total_connections + 1 },
     .accepted client_id)

/-! ### `UDPPacket` (packet.py)

`socket.inet_aton` is an external library call modelled by an abstract
address-validity predicate `inet_ok`; `bytes.hex()` / `bytes.fromhex()`
are modelled by an explicit lowercase hex codec.  Bytes are naturals
(`< 256` wherever they come from a real Python `bytes`). -/

/-- One lowercase hex digit, as produced by `bytes.hex()`: values below
ten map into the ASCII digit block (codepoint 48 + value), the rest into
the lowercase letter block (codepoint 87 + value). -/
def hexDigitChar (n : ℕ) : Char :=
  if n < 10 then Char.ofNat (48 + n) else Char.ofNat (87 + n)

/-- `bytes.hex()`: two lowercase hex digits per byte. -/
def bytesHex (bs : List ℕ) : String :=
  String.mk (bs.flatMap (fun b => [hexDigitChar (b / 16), hexDigitChar (b % 16)]))

/-- Value of one hex digit, upper or lower case, computed from the ASCII
codepoint blocks. -/
def hexVal? (c : Char) : Option ℕ :=
  if 48 ≤ c.toNat ∧ c.toNat ≤ 57 then some (c.toNat - 48)
  else if 97 ≤ c.toNat ∧ c.toNat ≤ 102 then some (c.toNat - 87)
  else if 65 ≤ c.toNat ∧ c.toNat ≤ 70 then some (c.toNat - 55)
  else none

/-- `bytes.fromhex()` on a string without separators: consume hex-digit
pairs; an odd length or a non-hex character raises `ValueError`
(`none`).  (CPython additionally skips ASCII spaces between pairs; no
claim feeds it strings with spaces.) -/
def bytesFromHex : List Char → Option (List ℕ)
  | [] => some []
  | [_] => none
  | c₁ :: c₂ :: rest =>
      match hexVal? c₁, hexVal? c₂, bytesFromHex rest with
      | some hi, some lo, some bs => some ((hi * 16 + lo) :: bs)
      | _, _, _ => none

structure UDPPacket where
  payload : List ℕ
  source_addr : String
  source_port : ℤ
  dest_addr : Option String
  dest_port : Option ℤ
  timestamp : ℚ
  size : ℕ

/-- `UDPPacket._validate` (packet.py lines 41-61): port ranges and
`inet_aton` acceptance of the addresses (destination checks only when
present).  The `isinstance(payload, bytes)` check holds by typing. -/
def UDPPacket.validate (inet_ok : String → Bool) (p : UDPPacket) : Bool :=
  decide (0 ≤ p.source_port ∧ p.source_port ≤ 65535) &&
  (match p.dest_port with
   | none => true
   | some d => decide (0 ≤ d ∧ d ≤ 65535)) &&
  inet_ok p.source_addr &&
  (match p.dest_addr with
   | none => true
   | some a => inet_ok a)

/-- The `UDPPacket` constructor together with `__post_init__` (packet.py
lines 28-61): `size` is derived from the payload and `_validate` may raise
`ValueError`. -/
def mkUDPPacket (inet_ok : String → Bool) (payload : List ℕ)
    (source_addr : String) (source_port : ℤ) (dest_addr : Option String)
    (dest_port : Option ℤ) (timestamp : ℚ) : Except String UDPPacket :=
  let p : UDPPacket :=
    ⟨payload, source_addr, source_port, dest_addr, dest_port, timestamp,
     payload.length⟩
  if p.validate inet_ok then .ok p else .error "ValueError"

/-- `UDPPacket.to_dict` (packet.py lines 63-77). -/
def UDPPacket.to_dict (p : UDPPacket) : JObj :=
  [("payload", .jstr (bytesHex p.payload)),
   ("source_addr", .jstr p.source_addr),
   ("source_port", .jint p.source_port),
   ("dest_addr", match p.dest_addr with | none => .jnull | some a => .jstr a),
   ("dest_port", match p.dest_port with | none => .jnull | some d => .jint d),
   ("timestamp", .jnum p.timestamp),
   ("size", .jint (p.size : ℤ))]

/-- `UDPPacket.from_dict` (packet.py lines 96-121): decode the hex
payload, read the addressing fields (`data.get` returns `None` both for an
absent key and a JSON `null`), default the timestamp to `now`
(`time.time()`), and run the constructor; `KeyError`/`ValueError` become
`ValueError("Invalid packet data: ...")`. -/
def UDPPacket.from_dict (inet_ok : String → Bool) (now : ℚ) (d : JObj) :
    Except String UDPPacket :=
  match d.lookup "payload" with
  | some (.jstr s) =>
      match bytesFromHex s.data with
      | some payload =>
          match d.lookup "source_addr", d.lookup "source_port" with
          | some (.jstr sa), some (.jint sp) =>
              let da : Option String :=
                match d.lookup "dest_addr" with
                | some (.jstr a) => some a
                | _ => none
              let dp : Option ℤ :=
                match d.lookup "dest_port" with
                | some (.jint q) => some q
                | _ => none
              let ts : ℚ :=
                match d.lookup "timestamp" with
                | some (.jnum q) => q
                | some (.jint n) => (n : ℚ)
                | _ => now
              match mkUDPPacket inet_ok payload sa sp da dp ts with
              | .ok p => .ok p
              | .error e => .error ("Invalid packet data: " ++ e)
          | _, _ => .error "Invalid packet data: KeyError"
      | none => .error "Invalid packet data: ValueError"
  | _ => .error "Invalid packet data: KeyError"

/-! ### Claim theorems -/

/-- C5: `ReliableChannel.send` composes the frame with its `_meta`
attached, inserts it into the pending buffer *before* the injected send
function is invoked (the `bufferAdd` event precedes the `wireSend` event
in the trace), and is total in the send outcome: whether the injected send
succeeds (`sendOk = true`) or raises (`sendOk = false`), the caller
receives the packet id and the entry is in the buffer, keyed by that id,
with the full frame and a fresh retry count. -/
theorem C5_send_buffers_before_wire
    (setIns : String → List String → List String) (t : ℚ) (sendOk : Bool)
    (data : JObj) (c : ReliableChannel) :
    (c.send setIns t sendOk data).1 = c.packetId t ∧
    (c.send setIns t sendOk data).2.2 =
      [.bufferAdd (c.packetId t) (c.sentFrame t data),
       .wireSend (c.sentFrame t data) sendOk] ∧
    ((c.send setIns t sendOk data).2.1.buffer.packets.lookup (c.packetId t)) =
      some ⟨c.sentFrame t data, t, 0⟩ := by
  refine ⟨rfl, rfl, ?_⟩
  show ((c.buffer.add setIns t (c.packetId t) (c.sentFrame t data)).packets.lookup
    (c.packetId t)) = some ⟨c.sentFrame t data, t, 0⟩
  unfold PacketBuffer.add
  exact lookup_pyDictSet_self _ _ _

/-- C8: a line that is not valid JSON makes `_process_packet` return a
structured error frame carrying an `error` field and a `_meta` object with
`requires_ack = false`; the client loop writes that frame and continues
(the connection is not closed), resetting the consecutive-error counter
exactly as any successfully read line does. -/
theorem C8_invalid_json_error_frame (t : ℚ) (errs : ℕ) :
    clientLoopStep t errs (.recv .bad) =
      (.cont, [errorFrame t "Invalid JSON"], 0) ∧
    ((errorFrame t "Invalid JSON").lookupField "error").isSome = true ∧
    (((errorFrame t "Invalid JSON").lookupField "_meta").bind
      (fun m => m.lookupField "requires_ack")) = some (.jbool false) :=
  ⟨rfl, rfl, rfl⟩

/-- C2: evidence that `PacketBuffer.add` does not evict by insertion
order.  The eviction victim is `next(iter(packet_ids))`, the first element
of the *set's* iteration order, which CPython derives from (randomised)
string hashes, not from insertion order.  Under the possible set layout in
which a newly added id comes first (`setInsFront`), inserting "a", then
"b", then "c" into a buffer of capacity 2 evicts "b" — an entry inserted
more recently than "a", which is still present — contradicting the claimed
strict-FIFO eviction (and the code's own `# remove oldest packet`
comment). -/
theorem C2_eviction_not_oldest :
    (((((PacketBuffer.mk 2 5 [] [] : PacketBuffer ℕ).add setInsFront 0 "a" 0).add
        setInsFront 1 "b" 0).add setInsFront 2 "c" 0).packets.lookup "a").isSome = true ∧
    (((((PacketBuffer.mk 2 5 [] [] : PacketBuffer ℕ).add setInsFront 0 "a" 0).add
        setInsFront 1 "b" 0).add setInsFront 2 "c" 0).packets.lookup "b").isSome = false ∧
    (((((PacketBuffer.mk 2 5 [] [] : PacketBuffer ℕ).add setInsFront 0 "a" 0).add
        setInsFront 1 "b" 0).add setInsFront 2 "c" 0).packets.lookup "c").isSome = true := by
  refine ⟨rfl, rfl, rfl⟩

/-- C3 counterexample: after the reconnection loop exhausts `max_retries`
(ten failing connect attempts) the manager is left disconnected with the
loop task finished; the claim says a subsequent `connection_lost()` then
transitions to reconnecting and restarts the loop, but
`connection_lost` returns at its `if not self._connected` guard: no loop
is started (`.2 = false`) and the task stays finished. -/
theorem C3_connection_lost_counterexample :
    ((ConnectionManager.mk 10 1 60 (1/10) false false 0 true).run_reconnect_loop
        (fun _ => false)).connected = false ∧
    ((ConnectionManager.mk 10 1 60 (1/10) false false 0 true).run_reconnect_loop
        (fun _ => false)).retry_count = 10 ∧
    ((ConnectionManager.mk 10 1 60 (1/10) false false 0 true).run_reconnect_loop
        (fun _ => false)).reconnect_task_running = false ∧
    (((ConnectionManager.mk 10 1 60 (1/10) false false 0 true).run_reconnect_loop
        (fun _ => false)).connection_lost).2 = false ∧
    (((ConnectionManager.mk 10 1 60 (1/10) false false 0 true).run_reconnect_loop
        (fun _ => false)).connection_lost).1.reconnect_task_running = false :=
  ⟨rfl, rfl, rfl, rfl, rfl⟩

/-- C3 (amended): `connection_lost()` is a no-op when the manager is
already disconnected — in particular after the reconnection loop has
exhausted `max_retries` — and only a fresh `connect()` can restart
reconnection then; when the manager is currently connected, it clears the
connected flag and ensures a reconnection loop is running, starting a new
one exactly when none is running. -/
theorem C3_connection_lost_only_when_connected (m : ConnectionManager) :
    (m.connected = false → m.connection_lost = (m, false)) ∧
    (m.connected = true →
      m.connection_lost.1.connected = false ∧
      m.connection_lost.1.reconnect_task_running = true ∧
      m.connection_lost.2 = !m.reconnect_task_running) := by
  constructor
  · intro h
    simp [ConnectionManager.connection_lost, h]
  · intro h
    rcases hr : m.reconnect_task_running with _ | _ <;>
      simp [ConnectionManager.connection_lost, h, hr]

/-- C3 witness: the amended statement applied to a connected manager with
no loop running and to the disconnected post-exhaustion state. -/
theorem C3_connection_lost_only_when_connected_witness :
    ((ConnectionManager.mk 10 1 60 (1/10) true false 0 false).connection_lost.1.connected
        = false ∧
      (ConnectionManager.mk 10 1 60 (1/10) true false 0 false).connection_lost.1.reconnect_task_running
        = true ∧
      (ConnectionManager.mk 10 1 60 (1/10) true false 0 false).connection_lost.2
        = !(ConnectionManager.mk 10 1 60 (1/10) true false 0 false).reconnect_task_running) ∧
    (ConnectionManager.mk 10 1 60 (1/10) false false 10 false).connection_lost
      = (ConnectionManager.mk 10 1 60 (1/10) false false 10 false, false) :=
  ⟨(C3_connection_lost_only_when_connected _).2 rfl,
   (C3_connection_lost_only_when_connected _).1 rfl⟩

/-- C4: admission control in `_handle_client`.  When a connection arrives
while the number of active sessions is at least `max_clients`, the server
closes it immediately: no `ClientInfo` is created, nothing is written, and
the state — in particular the active-session count — is unchanged
(`.rejected`, identity on the state).  Consequently the server never holds
more than `max_clients` sessions: the bound is preserved by every
admission step. -/
theorem C4_admission_cap (t : ℚ) (peer : String × ℕ) (s : TCPServer) :
    (s.max_clients ≤ s.clients.length →
      s.handle_client_admission t peer = (s, .rejected)) ∧
    (s.clients.length ≤ s.max_clients →
      (s.handle_client_admission t peer).1.clients.length ≤ s.max_clients) := by
  constructor
  · intro h
    simp [TCPServer.handle_client_admission, h]
  · intro h
    by_cases hc : s.max_clients ≤ s.clients.length
    · simp [TCPServer.handle_client_admission, hc]
      omega
    · simp only [TCPServer.handle_client_admission, if_neg hc]
      have := length_pyDictSet_le (peer.1 ++ ":" ++ pyNatStr peer.2)
        (ClientInfo.mk (peer.1 ++ ":" ++ pyNatStr peer.2) t t 0 0 0 0) s.clients
      omega

/-- The second component of `get_unacknowledged` keeps exactly the same
keys (timestamps and retry counters are refreshed in place). -/
theorem keys_get_unacknowledged {α : Type} (b : PacketBuffer α) (now : ℚ) :
    ((b.get_unacknowledged now).2).packets.map Prod.fst = b.packets.map Prod.fst := by
  unfold PacketBuffer.get_unacknowledged
  rw [List.map_map]
  refine List.map_congr_left ?_
  intro p _
  by_cases h : b.timeout_seconds < now - p.2.timestamp <;> simp [h]

/-- Every due pair returned by `get_unacknowledged` carries the `data`
field of some buffered entry. -/
theorem due_data_of_mem {α : Type} (b : PacketBuffer α) (now : ℚ)
    {pd : String × α} (h : pd ∈ (b.get_unacknowledged now).1) :
    ∃ p ∈ b.packets, pd = (p.1, p.2.data) := by
  unfold PacketBuffer.get_unacknowledged at h
  simp only [List.mem_filterMap] at h
  obtain ⟨p, hp, he⟩ := h
  by_cases hc : b.timeout_seconds < now - p.2.timestamp
  · rw [if_pos hc] at he
    exact ⟨p, hp, (Option.some.inj he).symm⟩
  · rw [if_neg hc] at he
    cases he

/-- When every due frame reads a zero `metaRetries` (true of every frame
composed by `send`, whose `_meta` never contains a `retries` key) and
`max_retries ≥ 1`, the fold underlying the retransmit loop drops nothing
and resends every element. -/
theorem retransmit_foldl_no_drop (c : ReliableChannel) (sendOk : String → Bool)
    (hmr : 1 ≤ c.max_retries) :
    ∀ (l : List (String × JObj)), (∀ pd ∈ l, metaRetries pd.2 = 0) →
      ∀ acc : ReliableChannel × List ChanEvent,
        l.foldl (retransmitStep c sendOk) acc =
          (acc.1, acc.2 ++ l.map (fun pd => ChanEvent.wireSend pd.2 (sendOk pd.1))) := by
  intro l
  induction l with
  | nil => intro _ acc; simp
  | cons pd rest ih =>
      intro hl acc
      have h0 : metaRetries pd.2 = 0 := hl pd (by simp)
      have hcond : ¬((c.max_retries : ℚ) ≤ metaRetries pd.2) := by
        rw [h0]
        push_neg
        have : (1 : ℚ) ≤ (c.max_retries : ℚ) := by exact_mod_cast hmr
        linarith
      simp only [List.foldl_cons, retransmitStep, if_neg hcond]
      rw [ih (fun x hx => hl x (by simp [hx]))]
      simp

/-- C1: the retransmit loop can never abandon a packet.  The drop test at
recovery.py line 373 reads `packet_data.get("_meta", {}).get("retries", 0)`,
but the frames stored in the buffer carry no `retries` key inside `_meta`
(the retry counter lives in the buffer entry and is incremented by
`get_unacknowledged`), so the test always compares `0 ≥ max_retries`.
Hence for every channel with `max_retries ≥ 1` whose buffered frames are
`send`-shaped, one retransmit-loop iteration emits no drop, resends every
due entry — regardless of how large the entries' retry counters have grown
— and leaves the set of buffered ids unchanged: an unacknowledged packet
is retransmitted forever, never dropped.  This contradicts the claimed
drop-after-`maxRetries` behaviour and the code's own "Max retries reached
… giving up" path, which is unreachable for `max_retries ≥ 1`. -/
theorem C1_retransmit_never_drops (t : ℚ) (sendOk : String → Bool)
    (c : ReliableChannel)
    (hmeta : ∀ p ∈ c.buffer.packets, metaRetries p.2.data = 0)
    (hmr : 1 ≤ c.max_retries) :
    countDrops (c.retransmitIter t sendOk).2 = 0 ∧
    countWireSends (c.retransmitIter t sendOk).2 =
      (c.buffer.get_unacknowledged t).1.length ∧
    (c.retransmitIter t sendOk).1.buffer.packets.map Prod.fst =
      c.buffer.packets.map Prod.fst := by
  have hdue : ∀ pd ∈ (c.buffer.get_unacknowledged t).1, metaRetries pd.2 = 0 := by
    intro pd hpd
    obtain ⟨p, hp, he⟩ := due_data_of_mem c.buffer t hpd
    rw [he]
    exact hmeta p hp
  have hfold := retransmit_foldl_no_drop c sendOk hmr
    (c.buffer.get_unacknowledged t).1 hdue
    ({ c with buffer := (c.buffer.get_unacknowledged t).2 }, [])
  unfold ReliableChannel.retransmitIter
  rw [hfold]
  refine ⟨?_, ?_, ?_⟩
  · simp only [countDrops, List.nil_append, List.countP_map]
    exact List.countP_eq_zero.2 (by intro x _; simp [Function.comp])
  · simp only [countWireSends, List.nil_append, List.countP_map]
    exact List.countP_eq_length.2 (by intro a _; simp [Function.comp])
  · exact keys_get_unacknowledged c.buffer t

/-- C1 witness: a concrete channel with `max_retries = 5` holding one
frame whose buffer-entry retry counter has already reached 7 (> 5); the
retransmit iteration at a time past the ack timeout still drops nothing
and resends the entry. -/
theorem C1_retransmit_never_drops_witness :
    countDrops ((ReliableChannel.mk 5
        (PacketBuffer.mk 1000 5
          [("0:0", BufEntry.mk
            [("_meta", JVal.jobj [("id", JVal.jstr "0:0"), ("seq", JVal.jint 0),
              ("timestamp", JVal.jnum 0), ("requires_ack", JVal.jbool true)])]
            0 7)]
          ["0:0"]) 1).retransmitIter 6 (fun _ => true)).2 = 0 ∧
    countWireSends ((ReliableChannel.mk 5
        (PacketBuffer.mk 1000 5
          [("0:0", BufEntry.mk
            [("_meta", JVal.jobj [("id", JVal.jstr "0:0"), ("seq", JVal.jint 0),
              ("timestamp", JVal.jnum 0), ("requires_ack", JVal.jbool true)])]
            0 7)]
          ["0:0"]) 1).retransmitIter 6 (fun _ => true)).2 =
      ((PacketBuffer.mk 1000 5
          [("0:0", BufEntry.mk
            [("_meta", JVal.jobj [("id", JVal.jstr "0:0"), ("seq", JVal.jint 0),
              ("timestamp", JVal.jnum 0), ("requires_ack", JVal.jbool true)])]
            0 7)]
          ["0:0"] : PacketBuffer JObj).get_unacknowledged 6).1.length ∧
    ((ReliableChannel.mk 5
        (PacketBuffer.mk 1000 5
          [("0:0", BufEntry.mk
            [("_meta", JVal.jobj [("id", JVal.jstr "0:0"), ("seq", JVal.jint 0),
              ("timestamp", JVal.jnum 0), ("requires_ack", JVal.jbool true)])]
            0 7)]
          ["0:0"]) 1).retransmitIter 6 (fun _ => true)).1.buffer.packets.map Prod.fst =
      ["0:0"] :=
  C1_retransmit_never_drops 6 (fun _ => true) _
    (by
      intro p hp
      rw [List.mem_singleton.1 hp]
      rfl)
    (by norm_num)

/-- C7: the backoff value of `_calculate_backoff` equals the capped
exponential `min(initialBackoff·2^r, maxBackoff)` plus a jitter term `d`
bounded by `jitterFraction` times that cap, floored at 0.1s; for every
fixed jitter draw it is non-decreasing in the retry count (hence so is its
expectation over the draw), and it never exceeds
`maxBackoff·(1 + jitterFraction)`.  Parameters range over the documented
domain: nonnegative `initial_backoff`, jitter fraction in [0, 1]
(recovery.py line 107: "Random jitter factor (0-1)"), and a `max_backoff`
of at least the 0.1s floor. -/
theorem C7_backoff_shape_monotone_bounded (i M j u : ℚ) (r : ℕ)
    (hi : 0 ≤ i) (hM : 1 / 10 ≤ M) (hj0 : 0 ≤ j) (hj1 : j ≤ 1)
    (hu : |u| ≤ 1) :
    (∃ d : ℚ, |d| ≤ j * min (i * 2 ^ r) M ∧
      calculateBackoff i M r j u = max (min (i * 2 ^ r) M + d) (1 / 10)) ∧
    calculateBackoff i M r j u ≤ M * (1 + j) ∧
    (∀ r' : ℕ, r ≤ r' → calculateBackoff i M r j u ≤ calculateBackoff i M r' j u) := by
  have habs := abs_le.1 hu
  have hb0 : ∀ s : ℕ, 0 ≤ min (i * 2 ^ s) M := by
    intro s
    exact le_min (by positivity) (by linarith)
  have hfac0 : 0 ≤ 1 + u * j := by nlinarith [habs.1, habs.2]
  have hfac1 : 1 + u * j ≤ 1 + j := by nlinarith [habs.1, habs.2]
  refine ⟨⟨u * (min (i * 2 ^ r) M * j), ?_, ?_⟩, ?_, ?_⟩
  · rw [abs_mul, abs_of_nonneg (mul_nonneg (hb0 r) hj0)]
    calc |u| * (min (i * 2 ^ r) M * j) ≤ 1 * (min (i * 2 ^ r) M * j) :=
          mul_le_mul_of_nonneg_right hu (mul_nonneg (hb0 r) hj0)
      _ = j * min (i * 2 ^ r) M := by ring
  · rfl
  · unfold calculateBackoff
    have hbM : min (i * 2 ^ r) M ≤ M := min_le_right _ _
    refine max_le ?_ (by nlinarith [hb0 r])
    nlinarith [hb0 r, hbM, hfac0, hfac1]
  · intro r' hr
    unfold calculateBackoff
    have hbb : min (i * 2 ^ r) M ≤ min (i * 2 ^ r') M := by
      refine min_le_min ?_ le_rfl
      exact mul_le_mul_of_nonneg_left
        (pow_le_pow_right₀ (by norm_num) hr) hi
    refine max_le_max ?_ le_rfl
    nlinarith [hfac0, hbb]

/-- C7 witness: the backoff shape, bound and monotonicity at the
constructor defaults (`initial_backoff = 1`, `max_backoff = 60`,
`jitter = 0.1`) with a zero jitter draw and retry count 3. -/
theorem C7_backoff_witness :
    (∃ d : ℚ, |d| ≤ (1 / 10) * min ((1 : ℚ) * 2 ^ 3) 60 ∧
      calculateBackoff 1 60 3 (1 / 10) 0 = max (min ((1 : ℚ) * 2 ^ 3) 60 + d) (1 / 10)) ∧
    calculateBackoff 1 60 3 (1 / 10) 0 ≤ 60 * (1 + 1 / 10) ∧
    (∀ r' : ℕ, 3 ≤ r' →
      calculateBackoff 1 60 3 (1 / 10) 0 ≤ calculateBackoff 1 60 r' (1 / 10) 0) :=
  C7_backoff_shape_monotone_bounded 1 60 (1 / 10) 0 3
    (by norm_num) (by norm_num) (by norm_num) (by norm_num) (by simp)

/-- C4 witness: a server at capacity (`max_clients = 0`) rejects a new
connection without any state change. -/
theorem C4_admission_cap_witness :
    (TCPServer.mk 0 [] 0).handle_client_admission 0 ("127.0.0.1", 5000)
      = (TCPServer.mk 0 [] 0, .rejected) ∧
    ((TCPServer.mk 0 [] 0).handle_client_admission 0 ("127.0.0.1", 5000)).1.clients.length
      ≤ 0 :=
  ⟨(C4_admission_cap 0 ("127.0.0.1", 5000) (TCPServer.mk 0 [] 0)).1 (by decide),
   (C4_admission_cap 0 ("127.0.0.1", 5000) (TCPServer.mk 0 [] 0)).2 (by decide)⟩

/-- C9: on a 30-second idle read timeout the client loop emits exactly one
heartbeat frame (the write is modelled as succeeding; the code attempts
exactly one write per timeout) and continues; the heartbeat's `_meta`
carries `requires_ack = true`; and since consecutive heartbeats on one
session are separated by at least the 30-second read timeout, with
nonnegative wall-clock times every two heartbeats of a session carry
distinct `_meta.id`s (`f"heartbeat:{int(time.time())}"` with strictly
increasing integer seconds). -/
theorem C9_idle_heartbeat_unique_ids :
    (∀ (t : ℚ) (errs : ℕ),
      clientLoopStep t errs .timeout = (.cont, [heartbeatFrame t], errs)) ∧
    (∀ t : ℚ,
      (((heartbeatFrame t).lookupField "_meta").bind
        (fun m => m.lookupField "requires_ack")) = some (.jbool true)) ∧
    (∀ ts : ℕ → ℚ, (∀ k, 0 ≤ ts k) → (∀ k, ts k + 30 ≤ ts (k + 1)) →
      ∀ a b : ℕ, a < b →
        (((heartbeatFrame (ts a)).lookupField "_meta").bind
          (fun m => m.lookupField "id")) ≠
        (((heartbeatFrame (ts b)).lookupField "_meta").bind
          (fun m => m.lookupField "id"))) := by
  refine ⟨fun t errs => rfl, fun t => rfl, ?_⟩
  intro ts h0 hgap a b hab heq
  have heq' : JVal.jstr ("heartbeat:" ++ pyIntStr (pyInt (ts a)))
      = JVal.jstr ("heartbeat:" ++ pyIntStr (pyInt (ts b))) := by
    have h1 : (((heartbeatFrame (ts a)).lookupField "_meta").bind
        (fun m => m.lookupField "id"))
        = some (.jstr ("heartbeat:" ++ pyIntStr (pyInt (ts a)))) := rfl
    have h2 : (((heartbeatFrame (ts b)).lookupField "_meta").bind
        (fun m => m.lookupField "id"))
        = some (.jstr ("heartbeat:" ++ pyIntStr (pyInt (ts b)))) := rfl
    rw [h1, h2] at heq
    exact Option.some.inj heq
  have hs : "heartbeat:" ++ pyIntStr (pyInt (ts a))
      = "heartbeat:" ++ pyIntStr (pyInt (ts b)) := by
    injection heq'
  have hpy : pyInt (ts a) = pyInt (ts b) :=
    pyIntStr_inj_of_nonneg (pyInt_nonneg (h0 a)) (pyInt_nonneg (h0 b))
      (string_append_left_cancel hs)
  have key : ∀ m n : ℕ, m < n → ts m + 30 ≤ ts n := by
    intro m n hmn
    induction n with
    | zero => omega
    | succ n ih =>
        rcases Nat.lt_succ_iff_lt_or_eq.1 hmn with h | h
        · have h1 := ih h
          have h2 := hgap n
          linarith
        · subst h
          exact hgap m
  have := pyInt_lt_of_add_le (h0 a) (key a b hab)
  omega

/-- C9 witness: the heartbeat step and metadata at time 30, and distinct
ids for the heartbeats of the session with wake-up times 0, 30, 60, …. -/
theorem C9_idle_heartbeat_unique_ids_witness :
    clientLoopStep 30 0 .timeout = (.cont, [heartbeatFrame 30], 0) ∧
    (((heartbeatFrame 30).lookupField "_meta").bind
      (fun m => m.lookupField "requires_ack")) = some (.jbool true) ∧
    (((heartbeatFrame ((fun k : ℕ => (30 : ℚ) * k) 0)).lookupField "_meta").bind
      (fun m => m.lookupField "id")) ≠
    (((heartbeatFrame ((fun k : ℕ => (30 : ℚ) * k) 1)).lookupField "_meta").bind
      (fun m => m.lookupField "id")) :=
  ⟨C9_idle_heartbeat_unique_ids.1 30 0,
   C9_idle_heartbeat_unique_ids.2.1 30,
   C9_idle_heartbeat_unique_ids.2.2 (fun k : ℕ => (30 : ℚ) * k)
     (by intro k; positivity)
     (by intro k; push_cast; ring_nf; linarith)
     0 1 (by norm_num)⟩

/-- C10: every `PacketBuffer` operation preserves the dict/set consistency
invariant — duplicate-free keys on both sides and equal membership — for
any set-insertion placement satisfying CPython set semantics (`setIns`
adds exactly the given element); moreover `acknowledge` of an absent id is
a no-op and `acknowledge` of a present id removes it from both the dict
and the set. -/
theorem C10_buffer_ops_preserve_invariant {α : Type}
    (setIns : String → List String → List String)
    (hmem : ∀ (a : String) (l : List String) (s : String),
      s ∈ setIns a l ↔ s = a ∨ s ∈ l)
    (hnd : ∀ (a : String) (l : List String), l.Nodup → (setIns a l).Nodup)
    (b : PacketBuffer α) (hb : b.Inv) (t now : ℚ) (k : String) (d : α) :
    (b.add setIns t k d).Inv ∧
    (b.acknowledge k).Inv ∧
    ((b.get_unacknowledged now).2).Inv ∧
    (b.clear).Inv ∧
    ((b.packets.lookup k).isSome = false → b.acknowledge k = b) ∧
    ((b.packets.lookup k).isSome = true →
      k ∉ (b.acknowledge k).packets.map Prod.fst ∧
      k ∉ (b.acknowledge k).packet_ids) := by
  obtain ⟨hk, hi, hm⟩ := hb
  have herase : ∀ (bp : List (String × BufEntry α)) (ids : List String),
      (bp.map Prod.fst).Nodup → ids.Nodup →
      (∀ s, s ∈ bp.map Prod.fst ↔ s ∈ ids) → ∀ x : String,
      ((pyDictPop x bp).map Prod.fst).Nodup ∧ (ids.erase x).Nodup ∧
        ∀ s, s ∈ (pyDictPop x bp).map Prod.fst ↔ s ∈ ids.erase x := by
    intro bp ids h1 h2 h3 x
    refine ⟨?_, h2.erase x, ?_⟩
    · rw [keys_pyDictPop]
      exact h1.erase x
    · intro s
      rw [keys_pyDictPop, List.Nodup.mem_erase_iff h1,
        List.Nodup.mem_erase_iff h2, h3 s]
  have hinsert : ∀ (bp : List (String × BufEntry α)) (ids : List String),
      (bp.map Prod.fst).Nodup → ids.Nodup →
      (∀ s, s ∈ bp.map Prod.fst ↔ s ∈ ids) → ∀ e : BufEntry α,
      ((pyDictSet k e bp).map Prod.fst).Nodup ∧ (setIns k ids).Nodup ∧
        ∀ s, s ∈ (pyDictSet k e bp).map Prod.fst ↔ s ∈ setIns k ids := by
    intro bp ids h1 h2 h3 e
    refine ⟨keys_nodup_pyDictSet k e bp h1, hnd k ids h2, ?_⟩
    intro s
    rw [mem_keys_pyDictSet, hmem, h3 s]
  refine ⟨?_, ?_, ?_, ?_, ?_, ?_⟩
  · unfold PacketBuffer.add PacketBuffer.Inv
    by_cases hcap : b.max_size ≤ b.packets.length
    · rcases hh : b.packet_ids.head? with _ | oldest
      · simp only [if_pos hcap, hh]
        exact hinsert b.packets b.packet_ids hk hi hm ⟨d, t, 0⟩
      · simp only [if_pos hcap, hh]
        obtain ⟨e1, e2, e3⟩ := herase b.packets b.packet_ids hk hi hm oldest
        exact hinsert _ _ e1 e2 e3 ⟨d, t, 0⟩
    · simp only [if_neg hcap]
      exact hinsert b.packets b.packet_ids hk hi hm ⟨d, t, 0⟩
  · unfold PacketBuffer.acknowledge PacketBuffer.Inv
    by_cases hl : (b.packets.lookup k).isSome = true
    · simp only [if_pos hl]
      exact herase b.packets b.packet_ids hk hi hm k
    · simp only [if_neg hl]
      exact ⟨hk, hi, hm⟩
  · unfold PacketBuffer.Inv
    have hids : ((b.get_unacknowledged now).2).packet_ids = b.packet_ids := rfl
    rw [keys_get_unacknowledged, hids]
    exact ⟨hk, hi, hm⟩
  · unfold PacketBuffer.clear PacketBuffer.Inv
    simp
  · intro h
    unfold PacketBuffer.acknowledge
    rw [if_neg (by rw [h]; exact Bool.false_ne_true)]
  · intro h
    unfold PacketBuffer.acknowledge
    simp only [if_pos h]
    constructor
    · intro hc
      rw [keys_pyDictPop] at hc
      exact ((List.Nodup.mem_erase_iff hk).1 hc).1 rfl
    · intro hc
      exact ((List.Nodup.mem_erase_iff hi).1 hc).1 rfl

/-- C10 witness: the invariant preservation applied to a concrete one-entry
buffer under the `setInsFront` placement. -/
theorem C10_buffer_ops_preserve_invariant_witness :
    ((PacketBuffer.mk 2 5 [("a", BufEntry.mk 0 0 0)] ["a"] : PacketBuffer ℕ).add
        setInsFront 1 "c" 7).Inv ∧
    ((PacketBuffer.mk 2 5 [("a", BufEntry.mk 0 0 0)] ["a"] : PacketBuffer ℕ).acknowledge
        "c").Inv ∧
    (((PacketBuffer.mk 2 5 [("a", BufEntry.mk 0 0 0)] ["a"] : PacketBuffer ℕ).get_unacknowledged
        6).2).Inv ∧
    ((PacketBuffer.mk 2 5 [("a", BufEntry.mk 0 0 0)] ["a"] : PacketBuffer ℕ).clear).Inv ∧
    (((PacketBuffer.mk 2 5 [("a", BufEntry.mk 0 0 0)] ["a"] : PacketBuffer ℕ).packets.lookup
        "c").isSome = false →
      (PacketBuffer.mk 2 5 [("a", BufEntry.mk 0 0 0)] ["a"] : PacketBuffer ℕ).acknowledge "c"
        = PacketBuffer.mk 2 5 [("a", BufEntry.mk 0 0 0)] ["a"]) ∧
    (((PacketBuffer.mk 2 5 [("a", BufEntry.mk 0 0 0)] ["a"] : PacketBuffer ℕ).packets.lookup
        "c").isSome = true →
      "c" ∉ ((PacketBuffer.mk 2 5 [("a", BufEntry.mk 0 0 0)] ["a"] : PacketBuffer ℕ).acknowledge
        "c").packets.map Prod.fst ∧
      "c" ∉ ((PacketBuffer.mk 2 5 [("a", BufEntry.mk 0 0 0)] ["a"] : PacketBuffer ℕ).acknowledge
        "c").packet_ids) :=
  C10_buffer_ops_preserve_invariant setInsFront mem_setInsFront nodup_setInsFront
    (PacketBuffer.mk 2 5 [("a", BufEntry.mk 0 0 0)] ["a"])
    (by
      refine ⟨by simp, by simp, ?_⟩
      intro s
      simp)
    1 6 "c" 7

theorem hexVal?_hexDigitChar {n : ℕ} (h : n < 16) :
    hexVal? (hexDigitChar n) = some n := by
  have key : ∀ m : Fin 16, hexVal? (hexDigitChar m.val) = some m.val := by decide
  exact key ⟨n, h⟩

/-- `bytes.fromhex` is a left inverse of `bytes.hex` on byte lists. -/
theorem bytesFromHex_bytesHex (l : List ℕ) (h : ∀ b ∈ l, b < 256) :
    bytesFromHex (bytesHex l).data = some l := by
  induction l with
  | nil => rfl
  | cons b t ih =>
      have hb : b < 256 := h b (by simp)
      have h1 : b / 16 < 16 := by omega
      have h2 : b % 16 < 16 := by omega
      have ht := ih (fun x hx => h x (by simp [hx]))
      have hdata : (bytesHex (b :: t)).data
          = hexDigitChar (b / 16) :: hexDigitChar (b % 16) :: (bytesHex t).data := by
        simp [bytesHex]
      rw [hdata]
      simp only [bytesFromHex, hexVal?_hexDigitChar h1, hexVal?_hexDigitChar h2, ht]
      have hdm : b / 16 * 16 + b % 16 = b := by omega
      rw [hdm]

/-- C6: decoding the encoding of a valid packet recovers it:
`from_dict(to_dict(p))` succeeds and returns a packet with identical
payload bytes, source address, source port, destination address and
destination port.  (`to_json`/`from_json` and `to_bytes`/`from_bytes` are
`json.dumps`/`json.loads` and UTF-8 around exactly these two functions.)
The hypotheses say `p` is a packet the constructor accepts: `_validate`
passed and the payload consists of bytes. -/
theorem C6_packet_roundtrip (inet_ok : String → Bool) (now : ℚ) (p : UDPPacket)
    (hv : p.validate inet_ok = true) (hp : ∀ b ∈ p.payload, b < 256) :
    ∃ p' : UDPPacket, UDPPacket.from_dict inet_ok now p.to_dict = .ok p' ∧
      p'.payload = p.payload ∧ p'.source_addr = p.source_addr ∧
      p'.source_port = p.source_port ∧ p'.dest_addr = p.dest_addr ∧
      p'.dest_port = p.dest_port := by
  obtain ⟨pl, sa, sp, da, dp, ts, sz⟩ := p
  refine ⟨⟨pl, sa, sp, da, dp, ts, pl.length⟩, ?_, rfl, rfl, rfl, rfl, rfl⟩
  have hv' : (UDPPacket.mk pl sa sp da dp ts pl.length).validate inet_ok = true := hv
  have hhex := bytesFromHex_bytesHex pl hp
  cases da <;> cases dp <;>
    simp [UDPPacket.from_dict, UDPPacket.to_dict, List.lookup, hhex,
      mkUDPPacket, hv']

/-- C6 witness: the round-trip at a concrete packet (`payload = b"Hel"`,
source `127.0.0.1:5000`, no destination) under an address validator that
accepts its addresses. -/
theorem C6_packet_roundtrip_witness :
    ∃ p' : UDPPacket,
      UDPPacket.from_dict (fun _ => true) 0
          (UDPPacket.mk [72, 101, 108] "127.0.0.1" 5000 none none 0 3).to_dict = .ok p' ∧
      p'.payload = (UDPPacket.mk [72, 101, 108] "127.0.0.1" 5000 none none 0 3).payload ∧
      p'.source_addr = (UDPPacket.mk [72, 101, 108] "127.0.0.1" 5000 none none 0 3).source_addr ∧
      p'.source_port = (UDPPacket.mk [72, 101, 108] "127.0.0.1" 5000 none none 0 3).source_port ∧
      p'.dest_addr = (UDPPacket.mk [72, 101, 108] "127.0.0.1" 5000 none none 0 3).dest_addr ∧
      p'.dest_port = (UDPPacket.mk [72, 101, 108] "127.0.0.1" 5000 none none 0 3).dest_port :=
  C6_packet_roundtrip (fun _ => true) 0
    (UDPPacket.mk [72, 101, 108] "127.0.0.1" 5000 none none 0 3) rfl (by decide)

end SUDP
